import Mathlib

/-!
Verification development for the taxflow-agent repository.

The development shallowly embeds the deterministic core of the system:
the 2024 tax rules engine, the aggregator and workflow driver, and the
two frontend rendering functions the claims are about. Monetary amounts
are rationals, matching the exact-decimal arithmetic the repository
requires for all monetary computation.
-/

namespace Taxflow

/-- Filing statuses supported by the engine (single, married filing jointly,
head of household), as in the backend schemas. -/
inductive FilingStatus
  | single
  | married_filing_jointly
  | head_of_household
deriving DecidableEq

/-- Modelled from the spec: the rules-engine module `tax_rules.py` is not in
the source tree; its `STANDARD_DEDUCTIONS` table follows the 2024 constants
in the repository tax logic document (Single 14600, MFJ 29200, HOH 21900). -/
def STANDARD_DEDUCTIONS : FilingStatus → ℚ
  | FilingStatus.single => 14600
  | FilingStatus.married_filing_jointly => 29200
  | FilingStatus.head_of_household => 21900

/-- Modelled from the spec: `get_standard_deduction` selects the 2024 standard
deduction for a filing status from the fixed lookup table. -/
def get_standard_deduction (fs : FilingStatus) : ℚ :=
  STANDARD_DEDUCTIONS fs

/-- Modelled from the spec: the `TAX_BRACKETS` table of `tax_rules.py`, one
ordered list of (upper bound, marginal rate) pairs per filing status, covering
the whole income range with the last pair unbounded (rate 37 percent). The
bounds and rates are the 2024 values of the repository tax logic document. -/
def TAX_BRACKETS : FilingStatus → List (Option ℚ × ℚ)
  | FilingStatus.single =>
      [(some 11600, 10/100), (some 47150, 12/100), (some 100525, 22/100),
       (some 191950, 24/100), (some 243725, 32/100), (some 609350, 35/100),
       (none, 37/100)]
  | FilingStatus.married_filing_jointly =>
      [(some 23200, 10/100), (some 94300, 12/100), (some 201050, 22/100),
       (some 383900, 24/100), (some 487450, 32/100), (some 731200, 35/100),
       (none, 37/100)]
  | FilingStatus.head_of_household =>
      [(some 16550, 10/100), (some 63100, 12/100), (some 100500, 22/100),
       (some 191950, 24/100), (some 243700, 32/100), (some 609350, 35/100),
       (none, 37/100)]

/-- Largest bounded upper bound of the bracket table of a filing status. -/
def bracketTableMax : FilingStatus → ℚ
  | FilingStatus.single => 609350
  | FilingStatus.married_filing_jointly => 731200
  | FilingStatus.head_of_household => 609350

/-- Modelled from the spec: the chunk-walking loop of the progressive tax
algorithm. For each bracket the chunk is the minimum of the remaining income
and the bracket width (upper bound minus previous upper bound); the chunk is
taxed at the bracket rate, subtracted from the remaining income, and the walk
stops as soon as the remaining income reaches zero. The final unbounded
bracket has no upper limit, so its chunk is the whole remaining income and
the walk always stops there. -/
def bracket_walk : List (Option ℚ × ℚ) → ℚ → ℚ → ℚ → ℚ
  | [], _, _, acc => acc
  | (some ub, r) :: rest, prev, remaining, acc =>
      if remaining - min remaining (ub - prev) ≤ 0 then
        acc + min remaining (ub - prev) * r
      else
        bracket_walk rest ub (remaining - min remaining (ub - prev))
          (acc + min remaining (ub - prev) * r)
  | (none, r) :: _, _, remaining, acc =>
      acc + min remaining remaining * r

/-- Modelled from the spec: `calculate_tax_liability` applies the 2024
progressive brackets of the filing status to the taxable income by the
chunk-walking algorithm. -/
def calculate_tax_liability (taxableIncome : ℚ) (fs : FilingStatus) : ℚ :=
  bracket_walk (TAX_BRACKETS fs) 0 taxableIncome 0

/-- Modelled from the spec: `calculate_taxable_income` computes gross income
minus the standard deduction, clamped at zero when negative. -/
def calculate_taxable_income (grossIncome deduction : ℚ) : ℚ :=
  if grossIncome - deduction < 0 then 0 else grossIncome - deduction

/-- Settlement status of the final balance (refund, owed, or even). -/
inductive BalanceStatus
  | refund
  | owed
  | even
deriving DecidableEq

/-- Modelled from the spec: `calculate_refund_or_owed` compares the liability
with the total withholding and returns an amount together with a
refund / owed / even status: refund of the difference when withholding
exceeds liability, owed the difference when liability exceeds withholding,
and even with amount zero when they are equal. -/
def calculate_refund_or_owed (taxLiability totalWithholding : ℚ) :
    ℚ × BalanceStatus :=
  if taxLiability < totalWithholding then
    (totalWithholding - taxLiability, BalanceStatus.refund)
  else if totalWithholding < taxLiability then
    (taxLiability - totalWithholding, BalanceStatus.owed)
  else
    (0, BalanceStatus.even)

/-- Aggregated per-session income and withholding totals (`TaxInput`). -/
structure TaxInput where
  totalWages : ℚ
  totalInterest : ℚ
  totalNecIncome : ℚ
  totalWithholding : ℚ
deriving DecidableEq

/-- Result record of the calculator (`CalculationResult`). -/
structure CalculationResult where
  grossIncome : ℚ
  standardDeduction : ℚ
  taxableIncome : ℚ
  taxLiability : ℚ
  totalWithholding : ℚ
  refundOrOwed : ℚ
  status : BalanceStatus
deriving DecidableEq

/-- Modelled from the spec: the tax service pipeline over a `TaxInput` —
gross income is the sum of wages, interest and NEC income; the standard
deduction is looked up from the filing status; taxable income, liability
and the final balance come from the rules engine. -/
def run_tax_calculation (fs : FilingStatus) (inp : TaxInput) :
    CalculationResult :=
  let gross := inp.totalWages + inp.totalInterest + inp.totalNecIncome
  let sd := get_standard_deduction fs
  let taxable := calculate_taxable_income gross sd
  let tax := calculate_tax_liability taxable fs
  let settled := calculate_refund_or_owed tax inp.totalWithholding
  { grossIncome := gross
    standardDeduction := sd
    taxableIncome := taxable
    taxLiability := tax
    totalWithholding := inp.totalWithholding
    refundOrOwed := settled.1
    status := settled.2 }

/-- Kinds of per-document extraction records the aggregator consumes
(wage statement, non-employee compensation, interest statement). -/
inductive DocKind
  | w2
  | nec1099
  | int1099
deriving DecidableEq

/-- Typed extraction record of one document: its kind, its income figure,
and its withheld-tax figure. -/
structure ExtractedDoc where
  kind : DocKind
  income : ℚ
  withholding : ℚ
deriving DecidableEq

/-- Workflow statuses of the pipeline state machine. -/
inductive WStatus
  | aggregating
  | waiting_for_user
  | calculating
  | validating
  | advising
  | complete
  | error
deriving DecidableEq

/-- Modelled from the spec: the persisted per-session `WorkflowState` record
of the workflow driver (the backend `state.py` is not in the source tree). -/
structure WorkflowState where
  filingStatus : Option FilingStatus
  taxYear : Option String
  personalInfo : List (String × String)
  userInputs : List (String × ℚ)
  aggregatedData : Option TaxInput
  calculationResult : Option CalculationResult
  validationResult : Option String
  advisorFeedback : Option String
  missingFields : List String
  warnings : List String
  logs : List String
  message : Option String
  status : WStatus
deriving DecidableEq

/-- Payload of one `process` invocation: optional filing status and tax year
plus newly supplied personal-info and user-input entries. -/
structure ProcessRequest where
  filingStatus : Option FilingStatus
  taxYear : Option String
  personalInfo : List (String × String)
  userInputs : List (String × ℚ)
deriving DecidableEq

/-- Write one key of an association map, overriding an existing entry for the
same key and appending otherwise. -/
def setKey {α : Type} (m : List (String × α)) (k : String) (v : α) :
    List (String × α) :=
  if m.any (fun p => p.1 == k) then
    m.map (fun p => if p.1 == k then (k, v) else p)
  else
    m ++ [(k, v)]

/-- Modelled from the spec: the explicit last-write-wins per-key merge of
newly supplied entries into stored entries. -/
def mergeMap {α : Type} (stored updates : List (String × α)) :
    List (String × α) :=
  updates.foldl (fun acc p => setKey acc p.1 p.2) stored

/-- Modelled from the spec: on every invocation the driver merges newly
supplied filing status, tax year, personal info and user inputs into the
stored state, later writes overriding earlier ones per key. -/
def mergeRequest (s : WorkflowState) (req : ProcessRequest) : WorkflowState :=
  { s with
    filingStatus := match req.filingStatus with
      | some v => some v
      | none => s.filingStatus
    taxYear := match req.taxYear with
      | some v => some v
      | none => s.taxYear
    personalInfo := mergeMap s.personalInfo req.personalInfo
    userInputs := mergeMap s.userInputs req.userInputs }

/-- Sum of the income figures of the documents of one kind. -/
def sumIncome (docs : List ExtractedDoc) (k : DocKind) : ℚ :=
  (docs.filter (fun d => d.kind == k)).foldl (fun a d => a + d.income) 0

/-- Sum of the withheld-tax figures of all documents. -/
def sumWithholding (docs : List ExtractedDoc) : ℚ :=
  docs.foldl (fun a d => a + d.withholding) 0

/-- Modelled from the spec: a user-input override replaces (rather than adds
to) the summed value of the corresponding aggregate field. -/
def applyOverride (ui : List (String × ℚ)) (k : String) (summed : ℚ) : ℚ :=
  match List.lookup k ui with
  | some v => v
  | none => summed

/-- Modelled from the spec: `aggregate_tax_data` of `tax_aggregator.py` sums
the per-document wage, interest, NEC and withholding figures into one
`TaxInput` and applies any user-input override per field. -/
def aggregate_tax_data (docs : List ExtractedDoc) (ui : List (String × ℚ)) :
    TaxInput :=
  { totalWages := applyOverride ui "total_wages" (sumIncome docs DocKind.w2)
    totalInterest :=
      applyOverride ui "total_interest" (sumIncome docs DocKind.int1099)
    totalNecIncome :=
      applyOverride ui "total_nec_income" (sumIncome docs DocKind.nec1099)
    totalWithholding :=
      applyOverride ui "total_withholding" (sumWithholding docs) }

/-- A personal-info field is present when it is stored with a non-empty
value. -/
def present (pi : List (String × String)) (k : String) : Bool :=
  match List.lookup k pi with
  | some v => v != ""
  | none => false

/-- Modelled from the spec: income data counts as supplied when any of the
three aggregated income fields is non-zero. -/
def hasIncomeData (docs : List ExtractedDoc) (ui : List (String × ℚ)) : Bool :=
  ((aggregate_tax_data docs ui).totalWages != 0) ||
    ((aggregate_tax_data docs ui).totalInterest != 0) ||
    ((aggregate_tax_data docs ui).totalNecIncome != 0)

/-- Modelled from the spec: the ordered mandatory-field checklist — the
identity fields (filing status, filer name, SSN, home address, occupation,
digital-assets answer) precede the income field. -/
def mandatoryChecklist : List String :=
  ["filing_status", "filer_name", "filer_ssn", "home_address", "occupation",
   "digital_assets", "income_data"]

/-- Whether one mandatory field is missing from the given stored data. -/
def fieldMissing (docs : List ExtractedDoc) (pi : List (String × String))
    (fso : Option FilingStatus) (ui : List (String × ℚ)) (f : String) : Bool :=
  if f == "filing_status" then !fso.isSome
  else if f == "income_data" then !hasIncomeData docs ui
  else !present pi f

/-- Modelled from the spec: the names of the mandatory fields currently
missing, in the stable checklist order. -/
def computeMissing (docs : List ExtractedDoc) (s : WorkflowState) :
    List String :=
  mandatoryChecklist.filter
    (fieldMissing docs s.personalInfo s.filingStatus s.userInputs)

/-- The single supported tax year. -/
def SUPPORTED_TAX_YEAR : String := "2024"

/-- Error message naming an unsupported tax year, as documented in the API
reference. -/
def unsupportedYearMessage (y : String) : String :=
  "Tax year " ++ y ++
    " is not supported. This system only supports 2024 tax calculations."

/-- The declared session tax year when it is unsupported; `none` when the
year is unset or equals the supported year. -/
def taxYearBad (s : WorkflowState) : Option String :=
  match s.taxYear with
  | some y => if y == SUPPORTED_TAX_YEAR then none else some y
  | none => none

/-- Modelled from the spec: the aggregator node — it fails fatally on an
unsupported declared tax year, suspends with the missing mandatory fields
when any is absent, and otherwise stores the aggregated data and advances
to calculation; each outcome appends one log entry. -/
def aggregator_node (docs : List ExtractedDoc) (s : WorkflowState) :
    WorkflowState :=
  match taxYearBad s with
  | some y =>
      { s with
        status := WStatus.error
        message := some (unsupportedYearMessage y)
        warnings := s.warnings ++ [unsupportedYearMessage y]
        logs := s.logs ++ [unsupportedYearMessage y] }
  | none =>
      if computeMissing docs s = [] then
        { s with
          aggregatedData := some (aggregate_tax_data docs s.userInputs)
          missingFields := []
          status := WStatus.calculating
          logs :=
            s.logs ++ ["Data aggregation complete. Proceeding to calculation."] }
      else
        { s with
          missingFields := computeMissing docs s
          status := WStatus.waiting_for_user
          message := some "Please provide the following information to continue"
          logs := s.logs ++ ["Pausing workflow. Waiting for mandatory fields."] }

/-- Modelled from the spec: the calculator node runs the rules engine on the
aggregated data and filing status; a missing precondition is an internal
invariant violation that aborts the workflow with a fatal error. -/
def calculator_node (s : WorkflowState) : WorkflowState :=
  match s.aggregatedData, s.filingStatus with
  | some inp, some fs =>
      { s with
        calculationResult := some (run_tax_calculation fs inp)
        status := WStatus.validating
        logs := s.logs ++ ["Tax calculation complete."] }
  | _, _ =>
      { s with
        status := WStatus.error
        message := some "An error occurred during processing"
        logs := s.logs ++ ["Calculator invariant violation."] }

/-- Modelled from the spec: the validator node delegates to an opaque
reasoning service; its output is recorded as text and never drives control
flow, so it is embedded as a deterministic stub. -/
def validator_node (s : WorkflowState) : WorkflowState :=
  { s with
    validationResult :=
      some "VALID - Calculation appears consistent with 2024 tax brackets."
    status := WStatus.advising
    logs := s.logs ++ ["AI Audit Passed. Results look consistent."] }

/-- Modelled from the spec: the advisor node delegates to the same class of
opaque service and completes the workflow; embedded as a deterministic
stub. -/
def advisor_node (s : WorkflowState) : WorkflowState :=
  { s with
    advisorFeedback := some "Advice generated successfully."
    status := WStatus.complete
    logs := s.logs ++ ["Advice generated successfully."] }

/-- Whether a workflow status is terminal (complete or error). -/
def isTerminal (st : WStatus) : Bool :=
  st == WStatus.complete || st == WStatus.error

/-- Modelled from the spec: the driver operation `process` — a terminal
session is replayed read-only; otherwise the new input is merged into the
stored state and the pipeline runs from the aggregator up to the next
suspension or terminal state, through calculator, validator and advisor. -/
def process (docs : List ExtractedDoc) (s : WorkflowState)
    (req : ProcessRequest) : WorkflowState :=
  if isTerminal s.status then s
  else if (aggregator_node docs (mergeRequest s req)).status =
      WStatus.calculating then
    (if (calculator_node (aggregator_node docs (mergeRequest s req))).status =
        WStatus.validating then
      advisor_node (validator_node
        (calculator_node (aggregator_node docs (mergeRequest s req))))
    else calculator_node (aggregator_node docs (mergeRequest s req)))
  else aggregator_node docs (mergeRequest s req)

/-- State of the mandatory-fields form of the frontend, from
`MandatoryFieldsForm.tsx`. -/
structure FormData where
  full_name : String
  ssn : String
  address : String
  filing_status : String
  tax_year : String
deriving DecidableEq

/-- Initial form state of `MandatoryFieldsForm.tsx`: empty identity fields,
filing status `single`, and tax year `2024`. -/
def initialFormData : FormData :=
  { full_name := ""
    ssn := ""
    address := ""
    filing_status := "single"
    tax_year := "2024" }

/-- The form inputs that have the `handleChange` handler wired to them. The
tax-year input is rendered disabled with no change handler, so it is not an
editable field. -/
inductive EditableField
  | full_name
  | ssn
  | address
  | filing_status
deriving DecidableEq

/-- The `handleChange` handler of `MandatoryFieldsForm.tsx`: it overwrites
the named field of the form state with the new value. -/
def handleChange (fd : FormData) (f : EditableField) (v : String) : FormData :=
  match f with
  | EditableField.full_name => { fd with full_name := v }
  | EditableField.ssn => { fd with ssn := v }
  | EditableField.address => { fd with address := v }
  | EditableField.filing_status => { fd with filing_status := v }

/-- Form state after a sequence of change events on the editable inputs. -/
def applyFormEvents (fd : FormData) (evs : List (EditableField × String)) :
    FormData :=
  evs.foldl (fun acc e => handleChange acc e.1 e.2) fd

/-- The form data submitted by `handleSubmit` after a user interaction given
by a sequence of change events starting from the initial state. -/
def submittedFormData (evs : List (EditableField × String)) : FormData :=
  applyFormEvents initialFormData evs

/-- Calculation-result record as the summary page reads it, with every field
optional, from `summary/[id]/page.tsx`. -/
structure SummaryTaxResult where
  gross_income : Option ℚ
  taxable_income : Option ℚ
  tax_liability : Option ℚ
  refund_or_owed : Option ℚ
  standard_deduction : Option ℚ
  status : Option String
deriving DecidableEq

/-- The status string of the possibly-absent summary data. -/
def summaryStatus (taxData : Option SummaryTaxResult) : Option String :=
  match taxData with
  | some t => t.status
  | none => none

/-- The `isRefund` flag of the summary page: the status string of the data
equals `refund` (false when the data or the status is absent). -/
def summaryIsRefund (taxData : Option SummaryTaxResult) : Bool :=
  summaryStatus taxData == some "refund"

/-- The displayed refund / owed amount of the summary page: the absolute
value of `refund_or_owed`, defaulting to zero when the field or the whole
record is absent. -/
def displayedRefundOrOwed (taxData : Option SummaryTaxResult) : ℚ :=
  |(match taxData with
    | some t => t.refund_or_owed.getD 0
    | none => 0)|

/-- The label of the refund / owed card of the summary page. -/
def refundOwedLabel (taxData : Option SummaryTaxResult) : String :=
  if summaryIsRefund taxData then "Estimated Refund" else "Amount Owed"

/-- A fresh workflow state as the driver creates it on the first invocation
of a session. -/
def initialState : WorkflowState :=
  { filingStatus := none
    taxYear := none
    personalInfo := []
    userInputs := []
    aggregatedData := none
    calculationResult := none
    validationResult := none
    advisorFeedback := none
    missingFields := []
    warnings := []
    logs := []
    message := none
    status := WStatus.aggregating }

/-- A request supplying nothing. -/
def emptyRequest : ProcessRequest :=
  { filingStatus := none, taxYear := none, personalInfo := [], userInputs := [] }

/-- A request supplying only a filing status. -/
def resumeRequest (fs : FilingStatus) : ProcessRequest :=
  { filingStatus := some fs, taxYear := none, personalInfo := [], userInputs := [] }

/-- A complete set of personal-info fields. -/
def fullPersonalInfo : List (String × String) :=
  [("filer_name", "John Doe"), ("filer_ssn", "123-45-6789"),
   ("home_address", "123 Main St, New York, NY 10001"),
   ("occupation", "Software Engineer"), ("digital_assets", "no")]

/-- Scenario A documents: one W-2 with wages 50000 and withholding 5000. -/
def scenarioADocs : List ExtractedDoc :=
  [{ kind := DocKind.w2, income := 50000, withholding := 5000 }]

/-- Session state of both test scenarios: a single filer with all mandatory
fields and the supported tax year. -/
def singleFilerState : WorkflowState :=
  { initialState with
    filingStatus := some FilingStatus.single
    taxYear := some "2024"
    personalInfo := fullPersonalInfo }

/-- Scenario B documents: one 1099-NEC with income 20000 and no
withholding. -/
def scenarioBDocs : List ExtractedDoc :=
  [{ kind := DocKind.nec1099, income := 20000, withholding := 0 }]

/-- A session state that declares the unsupported tax year 2023. -/
def badYearState : WorkflowState :=
  { initialState with taxYear := some "2023" }

/-- A session state with the supported tax year and nothing else supplied. -/
def allMissingState : WorkflowState :=
  { initialState with taxYear := some "2024" }

/-- A session suspended waiting only for the filing status: every other
mandatory field is stored and a W-2 supplies income data. -/
def suspendedState : WorkflowState :=
  { initialState with
    taxYear := some "2024"
    personalInfo := fullPersonalInfo
    missingFields := ["filing_status"]
    status := WStatus.waiting_for_user }

/-- Well-formedness of a bracket list relative to the previous upper bound:
bounded upper bounds are at least the previous bound and all rates are
non-negative. -/
def validBrackets : ℚ → List (Option ℚ × ℚ) → Prop
  | _, [] => True
  | prev, (some ub, r) :: rest => prev ≤ ub ∧ 0 ≤ r ∧ validBrackets ub rest
  | prev, (none, r) :: rest => 0 ≤ r ∧ validBrackets prev rest

/-- Modelled from the spec: the tax value at a bracket boundary obtained by
placing the final slice entirely in the lower bracket — every full bracket
below the boundary contributes its width at its own rate, and the bracket
whose inclusive upper bound is the boundary contributes its whole width at
its own (lower) rate. This is the spec-side reference the chunk algorithm is
compared with at each boundary. -/
def boundary_lower_tax_aux : ℚ → List (Option ℚ × ℚ) → ℚ → ℚ
  | _, [], _ => 0
  | prev, (some ub, r) :: rest, B =>
      if ub = B then (ub - prev) * r
      else (ub - prev) * r + boundary_lower_tax_aux ub rest B
  | prev, (none, _) :: rest, B => boundary_lower_tax_aux prev rest B

/-- Spec-side boundary tax of a filing status at a bracket upper bound. -/
def boundary_lower_tax (fs : FilingStatus) (B : ℚ) : ℚ :=
  boundary_lower_tax_aux 0 (TAX_BRACKETS fs) B

/-- The bounded bracket upper bounds of a filing status. -/
def bracketBounds (fs : FilingStatus) : List ℚ :=
  (TAX_BRACKETS fs).filterMap Prod.fst

theorem bracket_walk_ge (bs : List (Option ℚ × ℚ)) :
    ∀ prev rem acc : ℚ, validBrackets prev bs → 0 ≤ rem →
      acc ≤ bracket_walk bs prev rem acc := by
  induction bs with
  | nil => intro prev rem acc _ _; simp [bracket_walk]
  | cons hd tl ih =>
    intro prev rem acc hv hrem
    obtain ⟨ubOpt, r⟩ := hd
    cases ubOpt with
    | some ub =>
      simp only [validBrackets] at hv
      obtain ⟨hpu, hr, hrest⟩ := hv
      have hw : (0:ℚ) ≤ ub - prev := by linarith
      have hchunk : 0 ≤ min rem (ub - prev) := le_min hrem hw
      have hcr : 0 ≤ min rem (ub - prev) * r := mul_nonneg hchunk hr
      by_cases hbr : rem - min rem (ub - prev) ≤ 0
      · rw [bracket_walk, if_pos hbr]
        linarith
      · rw [bracket_walk, if_neg hbr]
        have h2 := ih ub (rem - min rem (ub - prev))
          (acc + min rem (ub - prev) * r) hrest (by linarith)
        linarith
    | none =>
      simp only [validBrackets] at hv
      obtain ⟨hr, _⟩ := hv
      simp only [bracket_walk, min_self]
      have := mul_nonneg hrem hr
      linarith

theorem bracket_walk_mono (bs : List (Option ℚ × ℚ)) :
    ∀ prev x y acc1 acc2 : ℚ, validBrackets prev bs → 0 ≤ x → x ≤ y →
      acc1 ≤ acc2 → bracket_walk bs prev x acc1 ≤ bracket_walk bs prev y acc2 := by
  induction bs with
  | nil =>
    intro prev x y a1 a2 _ _ _ hacc
    simpa [bracket_walk] using hacc
  | cons hd tl ih =>
    intro prev x y a1 a2 hv hx hxy hacc
    obtain ⟨ubOpt, r⟩ := hd
    cases ubOpt with
    | none =>
      simp only [validBrackets] at hv
      obtain ⟨hr, _⟩ := hv
      simp only [bracket_walk, min_self]
      have := mul_le_mul_of_nonneg_right hxy hr
      linarith
    | some ub =>
      simp only [validBrackets] at hv
      obtain ⟨hpu, hr, hrest⟩ := hv
      have hw : (0:ℚ) ≤ ub - prev := by linarith
      have hcxy : min x (ub - prev) ≤ min y (ub - prev) := min_le_min hxy le_rfl
      have hrx : 0 ≤ x - min x (ub - prev) :=
        sub_nonneg.mpr (min_le_left _ _)
      have hry : 0 ≤ y - min y (ub - prev) :=
        sub_nonneg.mpr (min_le_left _ _)
      have hrxy : x - min x (ub - prev) ≤ y - min y (ub - prev) := by
        rcases le_total x (ub - prev) with h1 | h1
        · rw [min_eq_left h1]
          linarith
        · rw [min_eq_right h1, min_eq_right (le_trans h1 hxy)]
          linarith
      have hacc2 : a1 + min x (ub - prev) * r ≤ a2 + min y (ub - prev) * r := by
        have := mul_le_mul_of_nonneg_right hcxy hr
        linarith
      rw [bracket_walk, bracket_walk]
      by_cases hbx : x - min x (ub - prev) ≤ 0 <;>
        by_cases hby : y - min y (ub - prev) ≤ 0
      · rw [if_pos hbx, if_pos hby]
        exact hacc2
      · rw [if_pos hbx, if_neg hby]
        exact le_trans hacc2 (bracket_walk_ge tl ub _ _ hrest (by linarith))
      · exact absurd (le_trans hrxy hby) hbx
      · rw [if_neg hbx, if_neg hby]
        exact ih ub _ _ _ _ hrest (by linarith) hrxy hacc2

theorem tax_brackets_valid (fs : FilingStatus) :
    validBrackets 0 (TAX_BRACKETS fs) := by
  cases fs <;> norm_num [TAX_BRACKETS, validBrackets]

theorem mergeMap_nil {α : Type} (m : List (String × α)) : mergeMap m [] = m :=
  rfl

theorem process_success (docs : List ExtractedDoc) (s : WorkflowState)
    (req : ProcessRequest) (fs : FilingStatus)
    (hterm : isTerminal s.status = false)
    (hyear : taxYearBad (mergeRequest s req) = none)
    (hmiss : computeMissing docs (mergeRequest s req) = [])
    (hfs : (mergeRequest s req).filingStatus = some fs) :
    (process docs s req).status = WStatus.complete ∧
    (process docs s req).missingFields = [] ∧
    (process docs s req).calculationResult =
      some (run_tax_calculation fs
        (aggregate_tax_data docs (mergeRequest s req).userInputs)) := by
  have hagg : aggregator_node docs (mergeRequest s req) =
      { mergeRequest s req with
        aggregatedData :=
          some (aggregate_tax_data docs (mergeRequest s req).userInputs)
        missingFields := []
        status := WStatus.calculating
        logs := (mergeRequest s req).logs ++
          ["Data aggregation complete. Proceeding to calculation."] } := by
    unfold aggregator_node
    rw [hyear]
    simp [hmiss]
  have hcalc : calculator_node (aggregator_node docs (mergeRequest s req)) =
      { mergeRequest s req with
        aggregatedData :=
          some (aggregate_tax_data docs (mergeRequest s req).userInputs)
        missingFields := []
        calculationResult := some (run_tax_calculation fs
          (aggregate_tax_data docs (mergeRequest s req).userInputs))
        status := WStatus.validating
        logs := ((mergeRequest s req).logs ++
          ["Data aggregation complete. Proceeding to calculation."]) ++
          ["Tax calculation complete."] } := by
    rw [hagg]
    unfold calculator_node
    simp [hfs]
  have hproc : process docs s req =
      advisor_node (validator_node
        (calculator_node (aggregator_node docs (mergeRequest s req)))) := by
    unfold process
    rw [hterm]
    rw [hcalc, hagg]
    simp
  rw [hproc, hcalc]
  simp [advisor_node, validator_node]

/-- C1: For Scenario A (filing status single, wages 50000, withholding 5000)
the pipeline completes with standard deduction 14600, taxable income 35400,
tax liability 4016 and a refund of 984; for Scenario B (single, NEC income
20000, withholding 0) it completes with taxable income 5400, tax liability
540 and an owed amount of 540. -/
theorem claim_C1 :
    (process scenarioADocs singleFilerState emptyRequest).status =
        WStatus.complete ∧
    (process scenarioADocs singleFilerState emptyRequest).calculationResult =
      some
        { grossIncome := 50000, standardDeduction := 14600,
          taxableIncome := 35400, taxLiability := 4016,
          totalWithholding := 5000, refundOrOwed := 984,
          status := BalanceStatus.refund } ∧
    (process scenarioBDocs singleFilerState emptyRequest).status =
        WStatus.complete ∧
    (process scenarioBDocs singleFilerState emptyRequest).calculationResult =
      some
        { grossIncome := 20000, standardDeduction := 14600,
          taxableIncome := 5400, taxLiability := 540,
          totalWithholding := 0, refundOrOwed := 540,
          status := BalanceStatus.owed } := by
  have hmergeA : mergeRequest singleFilerState emptyRequest = singleFilerState :=
    rfl
  have hmissA : computeMissing scenarioADocs singleFilerState = [] := by
    simp [computeMissing, mandatoryChecklist, fieldMissing, present,
      hasIncomeData, aggregate_tax_data, applyOverride, sumIncome,
      sumWithholding, scenarioADocs, singleFilerState, initialState,
      fullPersonalInfo, List.lookup, beq_iff_eq, String.reduceBEq,
      String.reduceEq]
  have hmissB : computeMissing scenarioBDocs singleFilerState = [] := by
    simp [computeMissing, mandatoryChecklist, fieldMissing, present,
      hasIncomeData, aggregate_tax_data, applyOverride, sumIncome,
      sumWithholding, scenarioBDocs, singleFilerState, initialState,
      fullPersonalInfo, List.lookup, beq_iff_eq, String.reduceBEq,
      String.reduceEq]
  obtain ⟨hsA, -, hcA⟩ :=
    process_success scenarioADocs singleFilerState emptyRequest
      FilingStatus.single rfl rfl (hmergeA ▸ hmissA) rfl
  obtain ⟨hsB, -, hcB⟩ :=
    process_success scenarioBDocs singleFilerState emptyRequest
      FilingStatus.single rfl rfl (hmergeA ▸ hmissB) rfl
  have haggA : aggregate_tax_data scenarioADocs
      (mergeRequest singleFilerState emptyRequest).userInputs =
      { totalWages := 50000, totalInterest := 0, totalNecIncome := 0,
        totalWithholding := 5000 } := by
    simp [aggregate_tax_data, applyOverride, sumIncome, sumWithholding,
      scenarioADocs, singleFilerState, initialState, mergeRequest, mergeMap,
      emptyRequest, List.lookup, beq_iff_eq]
  have haggB : aggregate_tax_data scenarioBDocs
      (mergeRequest singleFilerState emptyRequest).userInputs =
      { totalWages := 0, totalInterest := 0, totalNecIncome := 20000,
        totalWithholding := 0 } := by
    simp [aggregate_tax_data, applyOverride, sumIncome, sumWithholding,
      scenarioBDocs, singleFilerState, initialState, mergeRequest, mergeMap,
      emptyRequest, List.lookup, beq_iff_eq]
  refine ⟨hsA, ?_, hsB, ?_⟩
  · rw [hcA, haggA]
    norm_num [run_tax_calculation, get_standard_deduction,
      STANDARD_DEDUCTIONS, calculate_taxable_income, calculate_tax_liability,
      TAX_BRACKETS, bracket_walk, calculate_refund_or_owed, min_def]
  · rw [hcB, haggB]
    norm_num [run_tax_calculation, get_standard_deduction,
      STANDARD_DEDUCTIONS, calculate_taxable_income, calculate_tax_liability,
      TAX_BRACKETS, bracket_walk, calculate_refund_or_owed, min_def]

/-- C2: For every filing status and taxable incomes x ≤ y in [0, table max),
the bracket tax is non-decreasing; and at every bounded bracket upper bound
the chunk algorithm yields exactly the tax obtained by placing the boundary
income entirely in the lower bracket (inclusive upper bound, value
continuity). -/
theorem claim_C2 (fs : FilingStatus) (x y : ℚ) (hx : 0 ≤ x) (hxy : x ≤ y)
    (hy : y < bracketTableMax fs) :
    calculate_tax_liability x fs ≤ calculate_tax_liability y fs ∧
    ∀ b ∈ bracketBounds fs,
      calculate_tax_liability b fs = boundary_lower_tax fs b := by
  constructor
  · exact bracket_walk_mono (TAX_BRACKETS fs) 0 x y 0 0
      (tax_brackets_valid fs) hx hxy le_rfl
  · intro b hb
    cases fs <;> simp [bracketBounds, TAX_BRACKETS] at hb <;>
      rcases hb with h | h | h | h | h | h <;> subst h <;>
        norm_num [calculate_tax_liability, boundary_lower_tax,
          boundary_lower_tax_aux, TAX_BRACKETS, bracket_walk, min_def]

theorem claim_C2_witness :
    ((0:ℚ) ≤ 1000 ∧ (1000:ℚ) ≤ 20000 ∧
      (20000:ℚ) < bracketTableMax FilingStatus.single) ∧
    (calculate_tax_liability 1000 FilingStatus.single ≤
        calculate_tax_liability 20000 FilingStatus.single ∧
      ∀ b ∈ bracketBounds FilingStatus.single,
        calculate_tax_liability b FilingStatus.single =
          boundary_lower_tax FilingStatus.single b) :=
  ⟨⟨by norm_num, by norm_num, by norm_num [bracketTableMax]⟩,
    claim_C2 FilingStatus.single 1000 20000 (by norm_num) (by norm_num)
      (by norm_num [bracketTableMax])⟩

/-- C3: For non-negative liability and withholding, the settlement returns
refund of the difference when withholding exceeds liability, owed the
difference when liability exceeds withholding, even with amount zero when
equal, and the three statuses are mutually exclusive. -/
theorem claim_C3 (l w : ℚ) (hl : 0 ≤ l) (hw : 0 ≤ w) :
    (l < w → calculate_refund_or_owed l w = (w - l, BalanceStatus.refund)) ∧
    (w < l → calculate_refund_or_owed l w = (l - w, BalanceStatus.owed)) ∧
    (l = w → calculate_refund_or_owed l w = (0, BalanceStatus.even)) ∧
    ((calculate_refund_or_owed l w).2 = BalanceStatus.refund ↔ l < w) ∧
    ((calculate_refund_or_owed l w).2 = BalanceStatus.owed ↔ w < l) ∧
    ((calculate_refund_or_owed l w).2 = BalanceStatus.even ↔ l = w) := by
  unfold calculate_refund_or_owed
  split_ifs with h1 h2
  · refine ⟨fun _ => rfl, fun hc => absurd hc (lt_asymm h1),
      fun hc => absurd hc (ne_of_lt h1), ?_, ?_, ?_⟩ <;>
        simp [h1, lt_asymm h1, ne_of_lt h1]
  · refine ⟨fun hc => absurd hc h1, fun _ => rfl,
      fun hc => absurd hc (ne_of_gt h2), ?_, ?_, ?_⟩ <;>
        simp [h1, h2, ne_of_gt h2]
  · have h3 : l = w := le_antisymm (not_lt.mp h2) (not_lt.mp h1)
    refine ⟨fun hc => absurd hc h1, fun hc => absurd hc h2,
      fun _ => rfl, ?_, ?_, ?_⟩ <;> simp [h1, h2, h3]

theorem claim_C3_witness :
    ((0:ℚ) ≤ 4016 ∧ (0:ℚ) ≤ 5000) ∧
    (((4016:ℚ) < 5000 →
        calculate_refund_or_owed 4016 5000 = (984, BalanceStatus.refund)) ∧
      ((5000:ℚ) < 4016 →
        calculate_refund_or_owed 4016 5000 = (-984, BalanceStatus.owed)) ∧
      ((4016:ℚ) = 5000 →
        calculate_refund_or_owed 4016 5000 = (0, BalanceStatus.even)) ∧
      ((calculate_refund_or_owed 4016 5000).2 = BalanceStatus.refund ↔
        (4016:ℚ) < 5000) ∧
      ((calculate_refund_or_owed 4016 5000).2 = BalanceStatus.owed ↔
        (5000:ℚ) < 4016) ∧
      ((calculate_refund_or_owed 4016 5000).2 = BalanceStatus.even ↔
        (4016:ℚ) = 5000)) := by
  refine ⟨⟨by norm_num, by norm_num⟩, ?_⟩
  have h := claim_C3 4016 5000 (by norm_num) (by norm_num)
  norm_num at h ⊢
  exact h

/-- C4: For non-negative gross income and standard deduction, taxable income
equals max of zero and their difference, and in particular is non-negative
even when the deduction exceeds the gross income. -/
theorem claim_C4 (g d : ℚ) (hg : 0 ≤ g) (hd : 0 ≤ d) :
    calculate_taxable_income g d = max 0 (g - d) ∧
    0 ≤ calculate_taxable_income g d := by
  unfold calculate_taxable_income
  rcases lt_or_le (g - d) 0 with h | h
  · rw [if_pos h, max_eq_left h.le]
    exact ⟨rfl, le_rfl⟩
  · rw [if_neg (not_lt.mpr h), max_eq_right h]
    exact ⟨rfl, h⟩

theorem claim_C4_witness :
    ((0:ℚ) ≤ 1000 ∧ (0:ℚ) ≤ 14600) ∧
    (calculate_taxable_income 1000 14600 = max 0 (1000 - 14600) ∧
      0 ≤ calculate_taxable_income 1000 14600) :=
  ⟨⟨by norm_num, by norm_num⟩, claim_C4 1000 14600 (by norm_num) (by norm_num)⟩

/-- C5: A non-terminal process invocation whose merged session state declares
a tax year other than 2024 ends with status error, a message naming the
unsupported year, an unchanged (never produced) calculation result, and the
resulting state is terminal: every further invocation replays it
unchanged. -/
theorem claim_C5 (docs : List ExtractedDoc) (s : WorkflowState)
    (req : ProcessRequest) (y : String)
    (hterm : isTerminal s.status = false)
    (hy : (mergeRequest s req).taxYear = some y)
    (hbad : y ≠ SUPPORTED_TAX_YEAR) :
    (process docs s req).status = WStatus.error ∧
    (process docs s req).message = some (unsupportedYearMessage y) ∧
    (process docs s req).calculationResult = s.calculationResult ∧
    ∀ (docs2 : List ExtractedDoc) (req2 : ProcessRequest),
      process docs2 (process docs s req) req2 = process docs s req := by
  have hbadb : (y == SUPPORTED_TAX_YEAR) = false :=
    beq_eq_false_iff_ne.mpr hbad
  have hyb : taxYearBad (mergeRequest s req) = some y := by
    unfold taxYearBad
    rw [hy]
    simp [hbadb]
  have hagg : aggregator_node docs (mergeRequest s req) =
      { mergeRequest s req with
        status := WStatus.error
        message := some (unsupportedYearMessage y)
        warnings := (mergeRequest s req).warnings ++ [unsupportedYearMessage y]
        logs := (mergeRequest s req).logs ++ [unsupportedYearMessage y] } := by
    unfold aggregator_node
    rw [hyb]
  have hproc : process docs s req =
      aggregator_node docs (mergeRequest s req) := by
    unfold process
    rw [hterm, hagg]
    simp
  rw [hproc, hagg]
  refine ⟨rfl, rfl, rfl, ?_⟩
  intro docs2 req2
  unfold process
  simp [isTerminal, beq_iff_eq]

theorem claim_C5_witness :
    (isTerminal badYearState.status = false ∧
      (mergeRequest badYearState emptyRequest).taxYear = some "2023" ∧
      "2023" ≠ SUPPORTED_TAX_YEAR) ∧
    ((process [] badYearState emptyRequest).status = WStatus.error ∧
      (process [] badYearState emptyRequest).message =
        some (unsupportedYearMessage "2023") ∧
      (process [] badYearState emptyRequest).calculationResult =
        badYearState.calculationResult ∧
      ∀ (docs2 : List ExtractedDoc) (req2 : ProcessRequest),
        process docs2 (process [] badYearState emptyRequest) req2 =
          process [] badYearState emptyRequest) :=
  ⟨⟨rfl, rfl, by decide⟩,
    claim_C5 [] badYearState emptyRequest "2023" rfl rfl (by decide)⟩

/-- C6 as stated is falsified by a run whose mandatory fields are missing
while the session also declares an unsupported tax year: the workflow ends
with status error, not waiting_for_user. -/
theorem claim_C6_counterexample :
    computeMissing [] badYearState ≠ [] ∧
    (process [] badYearState emptyRequest).status ≠ WStatus.waiting_for_user ∧
    (process [] badYearState emptyRequest).status = WStatus.error := by
  refine ⟨by decide, ?_, ?_⟩ <;>
    · obtain ⟨h1, -, -, -⟩ :=
        claim_C5 [] badYearState emptyRequest "2023" rfl rfl (by decide)
      simp [h1]

/-- C6 (amended): For every non-terminal process invocation whose merged
state declares no unsupported tax year and misses at least one mandatory
field, the workflow sets status waiting_for_user, reports exactly the missing
field names in the stable checklist order (identity fields before the income
field), appends one log entry, and produces no calculation result. -/
theorem claim_C6 (docs : List ExtractedDoc) (s : WorkflowState)
    (req : ProcessRequest)
    (hterm : isTerminal s.status = false)
    (hyear : taxYearBad (mergeRequest s req) = none)
    (hmiss : computeMissing docs (mergeRequest s req) ≠ []) :
    (process docs s req).status = WStatus.waiting_for_user ∧
    (process docs s req).missingFields =
      computeMissing docs (mergeRequest s req) ∧
    (∀ f, f ∈ (process docs s req).missingFields ↔
      (f ∈ mandatoryChecklist ∧
        fieldMissing docs (mergeRequest s req).personalInfo
          (mergeRequest s req).filingStatus
          (mergeRequest s req).userInputs f = true)) ∧
    List.Sublist (process docs s req).missingFields mandatoryChecklist ∧
    (process docs s req).logs.length = s.logs.length + 1 ∧
    (process docs s req).calculationResult = s.calculationResult := by
  have hagg : aggregator_node docs (mergeRequest s req) =
      { mergeRequest s req with
        missingFields := computeMissing docs (mergeRequest s req)
        status := WStatus.waiting_for_user
        message := some "Please provide the following information to continue"
        logs := (mergeRequest s req).logs ++
          ["Pausing workflow. Waiting for mandatory fields."] } := by
    unfold aggregator_node
    rw [hyear]
    simp [hmiss]
  have hproc : process docs s req =
      aggregator_node docs (mergeRequest s req) := by
    unfold process
    rw [hterm, hagg]
    simp
  rw [hproc, hagg]
  refine ⟨rfl, rfl, ?_, ?_, ?_, rfl⟩
  · intro f
    simp [computeMissing, List.mem_filter]
  · exact List.filter_sublist _
  · simp [mergeRequest]

theorem claim_C6_witness :
    (isTerminal allMissingState.status = false ∧
      taxYearBad (mergeRequest allMissingState emptyRequest) = none ∧
      computeMissing [] (mergeRequest allMissingState emptyRequest) ≠ []) ∧
    ((process [] allMissingState emptyRequest).status =
        WStatus.waiting_for_user ∧
      (process [] allMissingState emptyRequest).missingFields =
        computeMissing [] (mergeRequest allMissingState emptyRequest) ∧
      (∀ f, f ∈ (process [] allMissingState emptyRequest).missingFields ↔
        (f ∈ mandatoryChecklist ∧
          fieldMissing []
            (mergeRequest allMissingState emptyRequest).personalInfo
            (mergeRequest allMissingState emptyRequest).filingStatus
            (mergeRequest allMissingState emptyRequest).userInputs f = true)) ∧
      List.Sublist (process [] allMissingState emptyRequest).missingFields
        mandatoryChecklist ∧
      (process [] allMissingState emptyRequest).logs.length =
        allMissingState.logs.length + 1 ∧
      (process [] allMissingState emptyRequest).calculationResult =
        allMissingState.calculationResult) :=
  ⟨⟨rfl, rfl, by decide⟩,
    claim_C6 [] allMissingState emptyRequest rfl rfl (by decide)⟩

theorem aggregator_node_preserves (docs : List ExtractedDoc)
    (s : WorkflowState) :
    (aggregator_node docs s).taxYear = s.taxYear ∧
    (aggregator_node docs s).personalInfo = s.personalInfo ∧
    (aggregator_node docs s).filingStatus = s.filingStatus ∧
    (aggregator_node docs s).userInputs = s.userInputs := by
  rcases h : taxYearBad s with _ | y
  · simp only [aggregator_node, h]
    split_ifs <;> simp
  · simp [aggregator_node, h]

/-- C7: The aggregator is idempotent — running it again on its own output
(same documents, no new user input) yields identical aggregated data and
identical missing fields; as a pure state transformer it has no effect
outside the workflow state. -/
theorem claim_C7 (docs : List ExtractedDoc) (s : WorkflowState) :
    (aggregator_node docs (aggregator_node docs s)).aggregatedData =
      (aggregator_node docs s).aggregatedData ∧
    (aggregator_node docs (aggregator_node docs s)).missingFields =
      (aggregator_node docs s).missingFields := by
  rcases h : taxYearBad s with _ | y
  · by_cases hm : computeMissing docs s = []
    · have hinner : aggregator_node docs s = { s with
          aggregatedData := some (aggregate_tax_data docs s.userInputs)
          missingFields := []
          status := WStatus.calculating
          logs := s.logs ++
            ["Data aggregation complete. Proceeding to calculation."] } := by
        unfold aggregator_node
        rw [h]
        simp [hm]
      have h2 : taxYearBad ({ s with
          aggregatedData := some (aggregate_tax_data docs s.userInputs)
          missingFields := []
          status := WStatus.calculating
          logs := s.logs ++
            ["Data aggregation complete. Proceeding to calculation."] } :
            WorkflowState) = none := h
      have hm2 : computeMissing docs ({ s with
          aggregatedData := some (aggregate_tax_data docs s.userInputs)
          missingFields := []
          status := WStatus.calculating
          logs := s.logs ++
            ["Data aggregation complete. Proceeding to calculation."] } :
            WorkflowState) = [] := hm
      rw [hinner]
      unfold aggregator_node
      rw [h2]
      simp [hm2]
    · have hinner : aggregator_node docs s = { s with
          missingFields := computeMissing docs s
          status := WStatus.waiting_for_user
          message := some "Please provide the following information to continue"
          logs := s.logs ++
            ["Pausing workflow. Waiting for mandatory fields."] } := by
        unfold aggregator_node
        rw [h]
        simp [hm]
      have h2 : taxYearBad ({ s with
          missingFields := computeMissing docs s
          status := WStatus.waiting_for_user
          message := some "Please provide the following information to continue"
          logs := s.logs ++
            ["Pausing workflow. Waiting for mandatory fields."] } :
            WorkflowState) = none := h
      have hm2 : computeMissing docs ({ s with
          missingFields := computeMissing docs s
          status := WStatus.waiting_for_user
          message := some "Please provide the following information to continue"
          logs := s.logs ++
            ["Pausing workflow. Waiting for mandatory fields."] } :
            WorkflowState) = computeMissing docs s := rfl
      rw [hinner]
      unfold aggregator_node
      rw [h2]
      simp [hm2, hm]
  · have hinner : aggregator_node docs s = { s with
        status := WStatus.error
        message := some (unsupportedYearMessage y)
        warnings := s.warnings ++ [unsupportedYearMessage y]
        logs := s.logs ++ [unsupportedYearMessage y] } := by
      unfold aggregator_node
      rw [h]
    have h2 : taxYearBad ({ s with
        status := WStatus.error
        message := some (unsupportedYearMessage y)
        warnings := s.warnings ++ [unsupportedYearMessage y]
        logs := s.logs ++ [unsupportedYearMessage y] } :
          WorkflowState) = some y := h
    rw [hinner]
    unfold aggregator_node
    rw [h2]
    simp

/-- C8: A session suspended with missing fields exactly [filing_status],
resumed by a request that supplies only the filing status, keeps every
stored personal-info and user-input entry unchanged and completes without
re-requesting any field. -/
theorem claim_C8 (docs : List ExtractedDoc) (s : WorkflowState)
    (fs : FilingStatus)
    (hsusp : s.status = WStatus.waiting_for_user)
    (hyear : taxYearBad s = none)
    (hmiss : computeMissing docs s = ["filing_status"]) :
    (mergeRequest s (resumeRequest fs)).personalInfo = s.personalInfo ∧
    (mergeRequest s (resumeRequest fs)).userInputs = s.userInputs ∧
    (process docs s (resumeRequest fs)).status = WStatus.complete ∧
    (process docs s (resumeRequest fs)).missingFields = [] := by
  have hterm : isTerminal s.status = false := by
    rw [hsusp]
    rfl
  have hyear2 : taxYearBad (mergeRequest s (resumeRequest fs)) = none := hyear
  have hfs2 : (mergeRequest s (resumeRequest fs)).filingStatus = some fs := rfl
  have hnotmiss : ∀ f ∈ mandatoryChecklist, f ≠ "filing_status" →
      fieldMissing docs s.personalInfo s.filingStatus s.userInputs f = false := by
    intro f hf hne
    by_contra hc
    have hc2 : fieldMissing docs s.personalInfo s.filingStatus s.userInputs f =
        true := by
      revert hc
      cases fieldMissing docs s.personalInfo s.filingStatus s.userInputs f <;>
        simp
    have hmem : f ∈ computeMissing docs s := by
      unfold computeMissing
      exact List.mem_filter.mpr ⟨hf, hc2⟩
    rw [hmiss] at hmem
    simp at hmem
    exact hne hmem
  have hmiss2 : computeMissing docs (mergeRequest s (resumeRequest fs)) = [] := by
    show mandatoryChecklist.filter
      (fieldMissing docs s.personalInfo (some fs) s.userInputs) = []
    rw [List.filter_eq_nil_iff]
    intro f hf
    by_cases hfe : f = "filing_status"
    · subst hfe
      simp [fieldMissing, String.reduceBEq]
    · have hskip := hnotmiss f hf hfe
      have hbe : (f == "filing_status") = false := beq_eq_false_iff_ne.mpr hfe
      by_cases hin : f = "income_data"
      · subst hin
        simp [fieldMissing, String.reduceBEq] at hskip ⊢
        exact hskip
      · have hbe2 : (f == "income_data") = false := beq_eq_false_iff_ne.mpr hin
        simp [fieldMissing, hbe, hbe2, hin] at hskip ⊢
        exact hskip
  obtain ⟨h1, h2, -⟩ :=
    process_success docs s (resumeRequest fs) fs hterm hyear2 hmiss2 hfs2
  exact ⟨rfl, rfl, h1, h2⟩

theorem claim_C8_witness :
    (suspendedState.status = WStatus.waiting_for_user ∧
      taxYearBad suspendedState = none ∧
      computeMissing scenarioADocs suspendedState = ["filing_status"]) ∧
    ((mergeRequest suspendedState
        (resumeRequest FilingStatus.single)).personalInfo =
          suspendedState.personalInfo ∧
      (mergeRequest suspendedState
        (resumeRequest FilingStatus.single)).userInputs =
          suspendedState.userInputs ∧
      (process scenarioADocs suspendedState
        (resumeRequest FilingStatus.single)).status = WStatus.complete ∧
      (process scenarioADocs suspendedState
        (resumeRequest FilingStatus.single)).missingFields = []) := by
  have hm : computeMissing scenarioADocs suspendedState = ["filing_status"] := by
    simp [computeMissing, mandatoryChecklist, fieldMissing, present,
      hasIncomeData, aggregate_tax_data, applyOverride, sumIncome,
      sumWithholding, scenarioADocs, suspendedState, initialState,
      fullPersonalInfo, List.lookup, beq_iff_eq, String.reduceBEq,
      String.reduceEq]
  exact ⟨⟨rfl, rfl, hm⟩,
    claim_C8 scenarioADocs suspendedState FilingStatus.single rfl rfl hm⟩

/-- C9: Every submission of the mandatory-fields form carries tax year
2024 — the form state starts at 2024 and no sequence of change events on
the editable inputs (the tax-year input is rendered disabled with no change
handler wired to it) can alter it. -/
theorem claim_C9 :
    initialFormData.tax_year = "2024" ∧
    ∀ evs : List (EditableField × String),
      (submittedFormData evs).tax_year = "2024" := by
  refine ⟨rfl, ?_⟩
  have key : ∀ (evs : List (EditableField × String)) (fd : FormData),
      (applyFormEvents fd evs).tax_year = fd.tax_year := by
    intro evs
    induction evs with
    | nil => intro fd; rfl
    | cons e rest ih =>
      intro fd
      have h1 : applyFormEvents fd (e :: rest) =
          applyFormEvents (handleChange fd e.1 e.2) rest := rfl
      rw [h1, ih]
      obtain ⟨f, v⟩ := e
      cases f <;> rfl
  intro evs
  unfold submittedFormData
  rw [key]
  rfl

/-- C10: On the summary page the displayed refund / owed amount is always
non-negative (the absolute value of the possibly-absent balance, defaulting
to zero), and the card is labeled Estimated Refund exactly when the status
string equals refund — every other status, including even or a missing one,
renders Amount Owed. -/
theorem claim_C10 (taxData : Option SummaryTaxResult) :
    0 ≤ displayedRefundOrOwed taxData ∧
    (refundOwedLabel taxData = "Estimated Refund" ↔
      summaryStatus taxData = some "refund") ∧
    (refundOwedLabel taxData = "Amount Owed" ↔
      ¬ summaryStatus taxData = some "refund") := by
  refine ⟨?_, ?_, ?_⟩
  · unfold displayedRefundOrOwed
    exact abs_nonneg _
  · unfold refundOwedLabel summaryIsRefund
    by_cases h : summaryStatus taxData = some "refund"
    · simp [h, String.reduceEq]
    · have hb : (summaryStatus taxData == some "refund") = false :=
        beq_eq_false_iff_ne.mpr h
      simp [hb, h, String.reduceEq]
  · unfold refundOwedLabel summaryIsRefund
    by_cases h : summaryStatus taxData = some "refund"
    · simp [h, String.reduceEq]
    · have hb : (summaryStatus taxData == some "refund") = false :=
        beq_eq_false_iff_ne.mpr h
      simp [hb, h, String.reduceEq]

end Taxflow
